import Mathlib

/-!
Verification of the recipe-app backend (src/backend/app.py).

The backend is a Flask service proxying TheMealDB and persisting favorites,
search history and a 7-day recipe cache in MySQL.  The embedding below models
the three tables as lists of rows, MySQL timestamps as integer seconds, and
the single upstream HTTP call of a handler as an `Except` parameter (an error
value standing for a transport or JSON-parse failure).  The JSON values that
flow through the handlers are modelled by an inductive `Json` type; the
stdlib json.dumps/json.loads round trip through the JSON column of
recipe_cache is modelled as the identity on `Json` values.  Python truthiness
(`if cached_recipe:`, `if not ingredient:`, `if data.get('meals'):`) and the
semantics of `dict.get` and `len` are modelled explicitly, since the handlers
rely on them.
-/

/-- JSON values as returned by response.json() and stored in recipe_cache.
Numbers are modelled as integers: no behavior verified here depends on
fractional values.  An object is an association list of fields; Python dicts
have unique keys, and lookups take the first binding. -/
inductive Json where
  | null : Json
  | bool (b : Bool) : Json
  | num (n : Int) : Json
  | str (s : String) : Json
  | arr (elems : List Json) : Json
  | obj (fields : List (String × Json)) : Json
deriving Repr

/-- Python truthiness of a JSON value, as used by `if cached_recipe:` and
`if data.get('meals'):` in app.py. -/
def Json.truthy : Json → Bool
  | .null => false
  | .bool b => b
  | .num n => n != 0
  | .str s => s != ""
  | .arr elems => !elems.isEmpty
  | .obj fields => !fields.isEmpty

/-- Python len() on a JSON value: defined on strings, lists and dicts,
a TypeError otherwise (in particular on None, as len(None) raises). -/
def pyLen : Json → Except String Nat
  | .str s => .ok s.length
  | .arr elems => .ok elems.length
  | .obj fields => .ok fields.length
  | .null => .error "TypeError: object of type NoneType has no len()"
  | .bool _ => .error "TypeError: object of type bool has no len()"
  | .num _ => .error "TypeError: object of type int has no len()"

/-- The expression len(data.get('meals', [])) of the search handlers
(app.py lines 136, 156, 176).  dict.get returns the default [] only when the
key is absent; when the key is present its value is used even when it is
null.  On a non-dict value, .get raises AttributeError. -/
def mealsCount (data : Json) : Except String Nat :=
  match data with
  | .obj fields =>
    match (fields.find? (fun kv => kv.1 == "meals")).map (fun kv => kv.2) with
    | none => .ok 0
    | some v => pyLen v
  | _ => .error "AttributeError: object has no attribute get"

/-- A favorites row, with the columns observable through the API
(the AUTO_INCREMENT id is internal and never returned).  Display columns are
nullable. -/
structure FavRow where
  user_id : Int
  meal_id : String
  meal_name : Option String
  meal_thumb : Option String
  category : Option String
  area : Option String
  created_at : Int
deriving Repr, DecidableEq

/-- A search_history row (observable columns). -/
structure HistRow where
  user_id : Int
  search_term : String
  search_type : String
  results_count : Nat
  created_at : Int
deriving Repr, DecidableEq

/-- A recipe_cache row.  recipe_data holds the payload; the json.dumps and
json.loads of app.py are the stdlib round trip, modelled as the identity. -/
structure CacheRow where
  meal_id : String
  recipe_data : Json
  cached_at : Int
deriving Repr

/-- The relational state: the three tables the handlers touch.  Rows are kept
in insertion order, as MySQL returns them for the unordered queries here. -/
structure DbState where
  favorites : List FavRow
  search_history : List HistRow
  recipe_cache : List CacheRow
deriving Repr

/-- An HTTP response: status code and JSON body. -/
structure Response where
  status : Nat
  body : Json
deriving Repr

/-- The error body jsonify({'error': msg}) used by every failure path. -/
def errBody (msg : String) : Json := .obj [("error", .str msg)]

/-- Result of running one handler: the response, the database state after the
request, and how many upstream HTTP calls the handler issued. -/
structure HandlerOut where
  resp : Response
  db : DbState
  upstreamCalls : Nat
deriving Repr

/-- INTERVAL 7 DAY in seconds. -/
def sevenDays : Int := 7 * 24 * 60 * 60

/-- get_cached_recipe (app.py 359-378): SELECT recipe_data FROM recipe_cache
WHERE meal_id = %s AND cached_at > DATE_SUB(NOW(), INTERVAL 7 DAY), then
fetchone: the first matching row's payload, or None when no row matches. -/
def get_cached_recipe (meal_id : String) (now : Int) (db : DbState) : Option Json :=
  (db.recipe_cache.find?
      (fun r => r.meal_id == meal_id && decide (now - sevenDays < r.cached_at))).map
    (fun r => r.recipe_data)

/-- cache_recipe (app.py 380-396): INSERT INTO recipe_cache (meal_id,
recipe_data) VALUES (%s, %s) ON DUPLICATE KEY UPDATE recipe_data =
VALUES(recipe_data), cached_at = NOW().  On a meal_id unique-key conflict the
existing row's payload and timestamp are replaced; otherwise a new row is
inserted with cached_at defaulting to NOW(). -/
def cache_recipe (meal_id : String) (recipe_data : Json) (now : Int) (db : DbState) : DbState :=
  if db.recipe_cache.any (fun r => r.meal_id == meal_id) then
    { db with recipe_cache := db.recipe_cache.map (fun r =>
        if r.meal_id == meal_id then
          { r with recipe_data := recipe_data, cached_at := now }
        else r) }
  else
    { db with recipe_cache := db.recipe_cache ++
        [{ meal_id := meal_id, recipe_data := recipe_data, cached_at := now }] }

/-- Outcome of the storage work attempted inside log_search_history:
get_db_connection may return None (connection failure), the INSERT may raise
a mysql Error, or everything succeeds. -/
inductive LogOutcome where
  | noConnection : LogOutcome
  | stmtError : LogOutcome
  | ok : LogOutcome
deriving Repr, DecidableEq

/-- log_search_history (app.py 342-357): INSERT INTO search_history.  A None
connection is skipped silently; a mysql Error is caught and printed; in both
failure cases no row is written and the function returns normally. -/
def log_search_history (user_id : Int) (search_term search_type : String)
    (results_count : Nat) (outcome : LogOutcome) (now : Int) (db : DbState) : DbState :=
  match outcome with
  | .ok => { db with search_history := db.search_history ++
      [{ user_id := user_id, search_term := search_term, search_type := search_type,
         results_count := results_count, created_at := now }] }
  | .noConnection => db
  | .stmtError => db

/-- search_by_ingredient (app.py 121-141).  The query parameter is none when
absent; request.args.get defaults it to ''.  An empty parameter returns 400
before any upstream or storage work.  Otherwise one upstream GET is issued;
on transport or parse failure the except branch returns 500.  len(data.get(
'meals', [])) may itself raise (see mealsCount), which the same except
branch turns into a 500.  On success the search is logged best-effort and the
upstream JSON is returned unchanged. -/
def search_by_ingredient (ingredient : Option String) (user_id : Int)
    (upstream : Except String Json) (outcome : LogOutcome) (now : Int)
    (db : DbState) : HandlerOut :=
  let ing := ingredient.getD ""
  if ing == "" then
    { resp := { status := 400, body := errBody "Ingredient parameter is required" },
      db := db, upstreamCalls := 0 }
  else
    match upstream with
    | .error e =>
      { resp := { status := 500, body := errBody e }, db := db, upstreamCalls := 1 }
    | .ok data =>
      match mealsCount data with
      | .error e =>
        { resp := { status := 500, body := errBody e }, db := db, upstreamCalls := 1 }
      | .ok n =>
        { resp := { status := 200, body := data },
          db := log_search_history user_id ing "ingredient" n outcome now db,
          upstreamCalls := 1 }

/-- search_by_name (app.py 143-161): same pattern as search_by_ingredient,
with the name parameter and search type "name". -/
def search_by_name (name : Option String) (user_id : Int)
    (upstream : Except String Json) (outcome : LogOutcome) (now : Int)
    (db : DbState) : HandlerOut :=
  let nm := name.getD ""
  if nm == "" then
    { resp := { status := 400, body := errBody "Name parameter is required" },
      db := db, upstreamCalls := 0 }
  else
    match upstream with
    | .error e =>
      { resp := { status := 500, body := errBody e }, db := db, upstreamCalls := 1 }
    | .ok data =>
      match mealsCount data with
      | .error e =>
        { resp := { status := 500, body := errBody e }, db := db, upstreamCalls := 1 }
      | .ok n =>
        { resp := { status := 200, body := data },
          db := log_search_history user_id nm "name" n outcome now db,
          upstreamCalls := 1 }

/-- search_by_category (app.py 163-181): same pattern, search type
"category". -/
def search_by_category (category : Option String) (user_id : Int)
    (upstream : Except String Json) (outcome : LogOutcome) (now : Int)
    (db : DbState) : HandlerOut :=
  let cat := category.getD ""
  if cat == "" then
    { resp := { status := 400, body := errBody "Category parameter is required" },
      db := db, upstreamCalls := 0 }
  else
    match upstream with
    | .error e =>
      { resp := { status := 500, body := errBody e }, db := db, upstreamCalls := 1 }
    | .ok data =>
      match mealsCount data with
      | .error e =>
        { resp := { status := 500, body := errBody e }, db := db, upstreamCalls := 1 }
      | .ok n =>
        { resp := { status := 200, body := data },
          db := log_search_history user_id cat "category" n outcome now db,
          upstreamCalls := 1 }

/-- The cache-miss path of get_recipe_details (app.py 192-200): one upstream
lookup.php call; transport or parse failure hits the except branch (500);
data.get('meals') on a non-dict raises AttributeError (500); the result is
cached only when data.get('meals') is truthy, and the upstream JSON is
returned unchanged. -/
def fetchAndCache (meal_id : String) (upstream : Except String Json) (now : Int)
    (db : DbState) : HandlerOut :=
  match upstream with
  | .error e =>
    { resp := { status := 500, body := errBody e }, db := db, upstreamCalls := 1 }
  | .ok data =>
    match data with
    | .obj fields =>
      let meals := (fields.find? (fun kv => kv.1 == "meals")).map (fun kv => kv.2)
      let db2 := if (meals.map Json.truthy).getD false then
          cache_recipe meal_id data now db
        else db
      { resp := { status := 200, body := data }, db := db2, upstreamCalls := 1 }
    | _ =>
      { resp := { status := 500, body := errBody "AttributeError: object has no attribute get" },
        db := db, upstreamCalls := 1 }

/-- get_recipe_details (app.py 183-203): serve the cached payload when
get_cached_recipe returns a truthy value (`if cached_recipe:`), otherwise
fetch from upstream and cache the result when it contains meals. -/
def get_recipe_details (meal_id : String) (upstream : Except String Json) (now : Int)
    (db : DbState) : HandlerOut :=
  match get_cached_recipe meal_id now db with
  | some cached =>
    if cached.truthy then
      { resp := { status := 200, body := cached }, db := db, upstreamCalls := 0 }
    else fetchAndCache meal_id upstream now db
  | none => fetchAndCache meal_id upstream now db

/-- add_favorite (app.py 237-270): data.get('meal_id') is None when absent
and `if not meal_id` also rejects an empty string, giving 400.  Otherwise
INSERT INTO favorites ... ON DUPLICATE KEY UPDATE meal_name =
VALUES(meal_name): on a (user_id, meal_id) unique-key conflict only the
display name is refreshed; otherwise a full new row is inserted with
created_at defaulting to now. -/
def add_favorite (user_id : Int) (meal_id : Option String)
    (meal_name meal_thumb category area : Option String) (now : Int)
    (db : DbState) : Response × DbState :=
  let m := meal_id.getD ""
  if m == "" then
    ({ status := 400, body := errBody "meal_id is required" }, db)
  else
    let db2 :=
      if db.favorites.any (fun r => r.user_id == user_id && r.meal_id == m) then
        { db with favorites := db.favorites.map (fun r =>
            if r.user_id == user_id && r.meal_id == m then
              { r with meal_name := meal_name }
            else r) }
      else
        { db with favorites := db.favorites ++
            [{ user_id := user_id, meal_id := m, meal_name := meal_name,
               meal_thumb := meal_thumb, category := category, area := area,
               created_at := now }] }
    ({ status := 200,
       body := .obj [("message", .str "Added to favorites"), ("meal_id", .str m)] }, db2)

/-- remove_favorite (app.py 272-295): DELETE FROM favorites WHERE user_id =
%s AND meal_id = %s, then an unconditional success response; the number of
affected rows is never inspected. -/
def remove_favorite (user_id : Int) (meal_id : String) (db : DbState) :
    Response × DbState :=
  let remaining :=
    db.favorites.filter (fun r => !(r.user_id == user_id && r.meal_id == meal_id))
  ({ status := 200,
     body := .obj [("message", .str "Removed from favorites"), ("meal_id", .str meal_id)] },
   { db with favorites := remaining })

/-- The descending-recency order of ORDER BY created_at DESC. -/
def histDesc (a b : HistRow) : Prop := b.created_at ≤ a.created_at

instance : DecidableRel histDesc := fun a b => Int.decLe b.created_at a.created_at

instance : IsTrans HistRow histDesc :=
  ⟨fun _ _ _ h1 h2 => le_trans h2 h1⟩

instance : IsTotal HistRow histDesc :=
  ⟨fun a b => (Int.le_total b.created_at a.created_at).imp id id⟩

/-- get_search_history (app.py 297-328): SELECT ... FROM search_history WHERE
user_id = %s ORDER BY created_at DESC LIMIT %s.  ORDER BY is modelled by a
stable sort on descending created_at (MySQL leaves the order of ties
unspecified). -/
def get_search_history (user_id : Int) (limit : Nat) (db : DbState) : List HistRow :=
  (List.insertionSort histDesc
      (db.search_history.filter (fun r => r.user_id == user_id))).take limit

/-- One call of the POST /api/favorites handler, for reasoning about
sequences of add_favorite requests. -/
structure AddCall where
  user_id : Int
  meal_id : Option String
  meal_name : Option String
  meal_thumb : Option String
  category : Option String
  area : Option String
  now : Int
deriving Repr, DecidableEq

/-- Apply a sequence of add_favorite requests to the database. -/
def applyAddCalls (calls : List AddCall) (db : DbState) : DbState :=
  calls.foldl (fun s c =>
    (add_favorite c.user_id c.meal_id c.meal_name c.meal_thumb c.category c.area c.now s).2) db

/-- The unique key unique_favorite (user_id, meal_id) of the favorites
table. -/
def favKey (r : FavRow) : Int × String := (r.user_id, r.meal_id)

/-- Schema invariant enforced by UNIQUE KEY unique_favorite (user_id,
meal_id): no two favorites rows share the (user, meal) pair. -/
def favInv (db : DbState) : Prop :=
  db.favorites.Pairwise (fun a b => favKey a ≠ favKey b)

/-- Schema invariant enforced by meal_id VARCHAR(50) UNIQUE NOT NULL on
recipe_cache: no two cache rows share a meal_id. -/
def cacheInv (db : DbState) : Prop :=
  db.recipe_cache.Pairwise (fun a b => a.meal_id ≠ b.meal_id)

/-! Concrete fixtures used to instantiate the theorems below. -/

/-- An empty database, as produced by init_db. -/
def dbEmpty : DbState := { favorites := [], search_history := [], recipe_cache := [] }

/-- A lookup.php result with one meal, in TheMealDB shape. -/
def payload0 : Json := .obj [("meals", .arr [.obj [("idMeal", .str "52772")]])]

/-- A database whose only cache row was written one hour before read time 0. -/
def dbFresh : DbState :=
  { favorites := [], search_history := [],
    recipe_cache := [{ meal_id := "52772", recipe_data := payload0, cached_at := -3600 }] }

/-- A database whose only cache row was written eight days before read time 0. -/
def dbStale : DbState :=
  { favorites := [], search_history := [],
    recipe_cache := [{ meal_id := "52772", recipe_data := payload0, cached_at := -691200 }] }

/-- A search_history row for user 1 created at time i. -/
def hRow (i : Int) : HistRow :=
  { user_id := 1, search_term := "chicken", search_type := "name",
    results_count := 3, created_at := i }

/-- Five history entries for user 1 (creation times 1..5, stored in insertion
order) plus one entry of another user. -/
def histDb : DbState :=
  { favorites := [], recipe_cache := [],
    search_history := [hRow 1, hRow 2, hRow 3, hRow 4, hRow 5,
      { user_id := 2, search_term := "beef", search_type := "name",
        results_count := 1, created_at := 9 }] }

/-- A stored favorite of user 1. -/
def favRow0 : FavRow :=
  { user_id := 1, meal_id := "52772", meal_name := some "Chicken",
    meal_thumb := none, category := none, area := none, created_at := 50 }

/-- A database with one favorite of user 1. -/
def dbFav : DbState :=
  { search_history := [], recipe_cache := [], favorites := [favRow0] }

/-- Two add_favorite requests of user 1 for meal 52772 differing in every
display field. -/
def callA : AddCall :=
  { user_id := 1, meal_id := some "52772", meal_name := some "A",
    meal_thumb := some "T", category := some "C", area := some "R", now := 100 }

/-- The second request of the pair. -/
def callB : AddCall :=
  { user_id := 1, meal_id := some "52772", meal_name := some "B",
    meal_thumb := some "T2", category := some "C2", area := some "R2", now := 200 }

/-! Helper lemmas shared by the claim theorems. -/

/-- In a list whose keys are pairwise distinct, find? with a predicate that
pins the key down returns the unique matching element. -/
theorem find?_eq_some_of_pairwise {α β : Type} (key : α → β) (p : α → Bool) (k : β)
    (hkey : ∀ x, p x = true → key x = k) :
    ∀ {l : List α}, l.Pairwise (fun a b => key a ≠ key b) →
      ∀ {r}, r ∈ l → p r = true → l.find? p = some r := by
  intro l
  induction l with
  | nil => intro _ r hr; simp at hr
  | cons a t ih =>
    intro hpw r hr hp
    rw [List.pairwise_cons] at hpw
    rcases List.mem_cons.mp hr with h | h
    · subst h
      exact List.find?_cons_of_pos _ hp
    · have hpa : p a = false := by
        rcases Bool.eq_false_or_eq_true (p a) with htr | hf
        · exact absurd (by rw [hkey a htr, hkey r hp]) (hpw.1 r h)
        · exact hf
      rw [List.find?_cons_of_neg _ (by simp [hpa])]
      exact ih hpw.2 h hp

/-- A pairwise-distinct-key list stays pairwise distinct under a map that
preserves keys. -/
theorem pairwise_key_map {α : Type} {β : Type} (f : α → α) (key : α → β)
    (hk : ∀ x, key (f x) = key x) {l : List α}
    (h : l.Pairwise (fun a b => key a ≠ key b)) :
    (l.map f).Pairwise (fun a b => key a ≠ key b) :=
  List.Pairwise.map f (fun a b hab => by rw [hk, hk]; exact hab) h

/-- Appending an element whose key is fresh keeps keys pairwise distinct. -/
theorem pairwise_key_append {α : Type} {β : Type} (key : α → β) {l : List α} (w : α)
    (h : l.Pairwise (fun a b => key a ≠ key b)) (hw : ∀ x ∈ l, key x ≠ key w) :
    (l ++ [w]).Pairwise (fun a b => key a ≠ key b) := by
  rw [List.pairwise_append]
  refine ⟨h, List.pairwise_singleton _ _, fun a ha b hb => ?_⟩
  rw [List.mem_singleton] at hb
  subst hb
  exact hw a ha

/-- A list in which no two elements both satisfy p has at most one element
satisfying p. -/
theorem countP_le_one_of_pairwise {α : Type} (p : α → Bool) :
    ∀ {l : List α}, l.Pairwise (fun a b => ¬(p a = true ∧ p b = true)) →
      l.countP p ≤ 1 := by
  intro l
  induction l with
  | nil => intro _; simp
  | cons a t ih =>
    intro h
    rw [List.pairwise_cons] at h
    rcases Bool.eq_false_or_eq_true (p a) with hpa | hpa
    · have ht : t.countP p = 0 := by
        rw [List.countP_eq_zero]
        intro x hx hpx
        exact h.1 x hx ⟨hpa, hpx⟩
      rw [List.countP_cons_of_pos _ _ hpa, ht]
    · rw [List.countP_cons_of_neg _ _ (by simp [hpa])]
      exact ih h.2

/-- If no element of a list satisfies p, it is pairwise free of double
matches. -/
theorem pairwise_of_no_key {α : Type} (p : α → Bool) {l : List α}
    (h : ∀ x ∈ l, p x = false) :
    l.Pairwise (fun a b => ¬(p a = true ∧ p b = true)) := by
  induction l with
  | nil => exact List.Pairwise.nil
  | cons a t ih =>
    rw [List.pairwise_cons]
    refine ⟨fun b _ hab => ?_, ih (fun x hx => h x (List.mem_cons_of_mem a hx))⟩
    rw [h a (List.mem_cons_self a t)] at hab
    exact Bool.false_ne_true hab.1

/-- Mapping an update that fixes un-keyed elements and sends every keyed
element of the list to w, over a list with at most one keyed element that
does contain one, leaves exactly [w] among the keyed elements. -/
theorem filter_map_upd {α : Type} (key : α → Bool) (upd : α → α) (w : α)
    (hid : ∀ x, key x = false → upd x = x) (hw : key w = true) :
    ∀ (l : List α), (∀ x ∈ l, key x = true → upd x = w) →
      l.Pairwise (fun a b => ¬(key a = true ∧ key b = true)) →
      l.any key = true → (l.map upd).filter key = [w] := by
  intro l
  induction l with
  | nil => intro _ _ hany; simp at hany
  | cons a t ih =>
    intro hupd hpw hany
    rw [List.pairwise_cons] at hpw
    rcases Bool.eq_false_or_eq_true (key a) with hka | hka
    · have hwa : upd a = w := hupd a (List.mem_cons_self a t) hka
      rw [List.map_cons, hwa, List.filter_cons_of_pos hw]
      have ht : ∀ x ∈ t, key x = false := by
        intro x hx
        rcases Bool.eq_false_or_eq_true (key x) with htr | hf
        · exact absurd ⟨hka, htr⟩ (hpw.1 x hx)
        · exact hf
      have hmap : t.map upd = t := by
        rw [List.map_congr_left (fun x hx => hid x (ht x hx))]
        exact List.map_id' t
      rw [hmap, List.filter_eq_nil_iff.mpr (fun x hx => by simp [ht x hx])]
    · rw [List.map_cons, hid a hka, List.filter_cons_of_neg (by simp [hka])]
      refine ih (fun x hx => hupd x (List.mem_cons_of_mem a hx)) hpw.2 ?_
      rcases (List.any_eq_true).mp hany with ⟨x, hx, hkx⟩
      rcases List.mem_cons.mp hx with h | h
      · rw [h, hka] at hkx
        exact absurd hkx Bool.false_ne_true
      · exact (List.any_eq_true).mpr ⟨x, h, hkx⟩

/-! Cache-layer lemmas. -/

/-- cache_recipe preserves the meal_id uniqueness invariant of
recipe_cache. -/
theorem cacheInv_cache_recipe (m : String) (p : Json) (t : Int) (db : DbState)
    (h : cacheInv db) : cacheInv (cache_recipe m p t db) := by
  unfold cacheInv at h
  unfold cacheInv cache_recipe
  split
  · exact pairwise_key_map _ (fun r : CacheRow => r.meal_id)
      (fun x => by
        rcases Bool.eq_false_or_eq_true (x.meal_id == m) with hx | hx <;> simp [hx]) h
  · next hany =>
      refine pairwise_key_append (fun r : CacheRow => r.meal_id) _ h ?_
      intro x hx hxm
      exact hany (List.any_eq_true.mpr ⟨x, hx, beq_iff_eq.mpr hxm⟩)

/-- After cache_recipe, the rows for the written meal_id are exactly the one
new row: the upsert replaces both payload and timestamp and never
duplicates. -/
theorem cache_recipe_filter (m : String) (p : Json) (t : Int) (db : DbState)
    (h : cacheInv db) :
    (cache_recipe m p t db).recipe_cache.filter (fun r => r.meal_id == m) =
      [{ meal_id := m, recipe_data := p, cached_at := t }] := by
  unfold cache_recipe
  split
  · next hany =>
      refine filter_map_upd (fun r : CacheRow => r.meal_id == m)
        (fun r => if r.meal_id == m then { r with recipe_data := p, cached_at := t } else r)
        { meal_id := m, recipe_data := p, cached_at := t }
        (fun x hx => by simp [hx]) (by simp)
        db.recipe_cache ?_ ?_ hany
      · intro x _ hkx
        have hxm : x.meal_id = m := beq_iff_eq.mp hkx
        simp [hkx, hxm]
      · unfold cacheInv at h
        refine List.Pairwise.imp ?_ h
        intro a b hab hc
        exact hab ((beq_iff_eq.mp hc.1).trans (beq_iff_eq.mp hc.2).symm)
  · next hany =>
      have h1 : db.recipe_cache.filter (fun r => r.meal_id == m) = [] := by
        rw [List.filter_eq_nil_iff]
        intro x hx hkx
        exact hany (List.any_eq_true.mpr ⟨x, hx, hkx⟩)
      simp [List.filter_append, h1]

/-- A read within the freshness window after cache_recipe returns exactly the
payload just written. -/
theorem get_after_cache (m : String) (p : Json) (t tr : Int) (db : DbState)
    (hinv : cacheInv db) (hw : tr - sevenDays < t) :
    get_cached_recipe m tr (cache_recipe m p t db) = some p := by
  have hfilter := cache_recipe_filter m p t db hinv
  have hinv2 := cacheInv_cache_recipe m p t db hinv
  unfold cacheInv at hinv2
  have hmem : ({ meal_id := m, recipe_data := p, cached_at := t } : CacheRow) ∈
      (cache_recipe m p t db).recipe_cache :=
    List.mem_of_mem_filter (p := fun r => r.meal_id == m)
      (by rw [hfilter]; exact List.mem_singleton_self _)
  unfold get_cached_recipe
  rw [find?_eq_some_of_pairwise (fun r : CacheRow => r.meal_id)
      (fun r => r.meal_id == m && decide (tr - sevenDays < r.cached_at)) m
      (fun x hx => beq_iff_eq.mp ((Bool.and_eq_true _ _).mp hx).1)
      hinv2 hmem (by simp [hw])]
  rfl

/-! Claim theorems. -/

/-- C1: get_cached_recipe(mealId) returns the stored payload if and only if a
recipe_cache row for mealId exists whose cached_at is strictly greater than
read-time-now minus 7 days; the unique fresh row's payload is the value
returned, and in every other case (no row, or a row 7 or more days old) the
result is None rather than an error. -/
theorem c1_get_cached_recipe_freshness (db : DbState) (m : String) (now : Int)
    (hinv : cacheInv db) :
    ((∃ r ∈ db.recipe_cache, r.meal_id = m ∧ now - sevenDays < r.cached_at) ↔
      (get_cached_recipe m now db).isSome = true) ∧
    (∀ r ∈ db.recipe_cache, r.meal_id = m → now - sevenDays < r.cached_at →
      get_cached_recipe m now db = some r.recipe_data) := by
  constructor
  · unfold get_cached_recipe
    rw [Option.isSome_map', List.find?_isSome]
    simp only [Bool.and_eq_true, beq_iff_eq, decide_eq_true_eq]
  · intro r hr h1 h2
    unfold cacheInv at hinv
    unfold get_cached_recipe
    rw [find?_eq_some_of_pairwise (fun x : CacheRow => x.meal_id)
        (fun x => x.meal_id == m && decide (now - sevenDays < x.cached_at)) m
        (fun x hx => beq_iff_eq.mp ((Bool.and_eq_true _ _).mp hx).1)
        hinv hr (by simp [h1, h2])]
    rfl

/-- C1 witness: at read time 0, the row cached one hour earlier (3600 s) is
returned and the row cached eight days earlier (691200 s) is not. -/
theorem c1_get_cached_recipe_freshness_witness :
    get_cached_recipe "52772" 0 dbFresh = some payload0 ∧
    get_cached_recipe "52772" 0 dbStale = none := by
  constructor
  · exact (c1_get_cached_recipe_freshness dbFresh "52772" 0
        (by simp [cacheInv, dbFresh])).2
      { meal_id := "52772", recipe_data := payload0, cached_at := -3600 }
      (by simp [dbFresh]) rfl (by decide)
  · rfl

/-- C9: cache_recipe(mealId, payload) leaves exactly one recipe_cache row for
mealId, holding the new payload with cached_at equal to the write time
(last-writer-wins), and a get_cached_recipe read within 7 days of the write
returns exactly the payload written. -/
theorem c9_cache_recipe_upsert (db : DbState) (m : String) (p : Json) (t : Int)
    (hinv : cacheInv db) :
    ((cache_recipe m p t db).recipe_cache.filter (fun r => r.meal_id == m) =
      [{ meal_id := m, recipe_data := p, cached_at := t }]) ∧
    (∀ tr : Int, tr - sevenDays < t →
      get_cached_recipe m tr (cache_recipe m p t db) = some p) :=
  ⟨cache_recipe_filter m p t db hinv,
   fun tr hw => get_after_cache m p t tr db hinv hw⟩

/-- C9 witness: overwriting the stale row of dbStale at time 0 leaves one row
for the meal, and a read one day later returns the written payload. -/
theorem c9_cache_recipe_upsert_witness :
    ((cache_recipe "52772" payload0 0 dbStale).recipe_cache.filter
        (fun r => r.meal_id == "52772") =
      [{ meal_id := "52772", recipe_data := payload0, cached_at := 0 }]) ∧
    get_cached_recipe "52772" 86400 (cache_recipe "52772" payload0 0 dbStale) =
      some payload0 := by
  have h := c9_cache_recipe_upsert dbStale "52772" payload0 0
    (by simp [cacheInv, dbStale])
  exact ⟨h.1, h.2 86400 (by decide)⟩

/-- C2: when a first GET /api/recipe/<mealId> request misses the cache and
the upstream result has a truthy meals field, the handler caches it and
returns it (one upstream call); a second request for the same mealId while
the row is within the 7-day window is served from the cache with no upstream
call, whatever the upstream would answer, so the two requests issue exactly
one upstream call in total. -/
theorem c2_second_request_served_from_cache (db : DbState) (m : String)
    (fields : List (String × Json)) (kv : String × Json) (t1 t2 : Int)
    (up2 : Except String Json)
    (hinv : cacheInv db)
    (hmiss : get_cached_recipe m t1 db = none)
    (hfind : fields.find? (fun kv => kv.1 == "meals") = some kv)
    (htruthy : kv.2.truthy = true)
    (hwindow : t2 - sevenDays < t1) :
    (get_recipe_details m (.ok (.obj fields)) t1 db).resp =
      { status := 200, body := .obj fields } ∧
    (get_recipe_details m (.ok (.obj fields)) t1 db).upstreamCalls = 1 ∧
    (get_recipe_details m up2 t2
        (get_recipe_details m (.ok (.obj fields)) t1 db).db).resp =
      { status := 200, body := .obj fields } ∧
    (get_recipe_details m up2 t2
        (get_recipe_details m (.ok (.obj fields)) t1 db).db).upstreamCalls = 0 := by
  have hout1 : get_recipe_details m (.ok (.obj fields)) t1 db =
      { resp := { status := 200, body := .obj fields },
        db := cache_recipe m (.obj fields) t1 db, upstreamCalls := 1 } := by
    simp only [get_recipe_details, fetchAndCache, hmiss, hfind, htruthy,
      Option.map_some', Option.getD_some, if_true]
  have hfne : fields ≠ [] := by
    intro hnil
    rw [hnil] at hfind
    simp at hfind
  have htr2 : (Json.obj fields).truthy = true := by
    unfold Json.truthy
    simp [hfne]
  have hcache2 : get_cached_recipe m t2 (cache_recipe m (.obj fields) t1 db) =
      some (.obj fields) := get_after_cache m (.obj fields) t1 t2 db hinv hwindow
  have hout2 : get_recipe_details m up2 t2 (cache_recipe m (.obj fields) t1 db) =
      { resp := { status := 200, body := .obj fields },
        db := cache_recipe m (.obj fields) t1 db, upstreamCalls := 0 } := by
    unfold get_recipe_details
    rw [hcache2]
    simp [htr2]
  simp [hout1, hout2]

/-- C2 witness: starting from the empty database at time 100, the first
request fetches and caches payload0; the second at time 200 is served from
cache even though the upstream is down, with one upstream call in total. -/
theorem c2_second_request_served_from_cache_witness :
    (get_recipe_details "52772" (.ok payload0) 100 dbEmpty).resp =
      { status := 200, body := payload0 } ∧
    (get_recipe_details "52772" (.ok payload0) 100 dbEmpty).upstreamCalls = 1 ∧
    (get_recipe_details "52772" (.error "upstream down") 200
        (get_recipe_details "52772" (.ok payload0) 100 dbEmpty).db).resp =
      { status := 200, body := payload0 } ∧
    (get_recipe_details "52772" (.error "upstream down") 200
        (get_recipe_details "52772" (.ok payload0) 100 dbEmpty).db).upstreamCalls = 0 :=
  c2_second_request_served_from_cache dbEmpty "52772"
    [("meals", .arr [.obj [("idMeal", .str "52772")]])]
    ("meals", .arr [.obj [("idMeal", .str "52772")]]) 100 200 (.error "upstream down")
    (by simp [cacheInv, dbEmpty]) rfl rfl rfl (by decide)

/-! Favorites-layer lemmas. -/

/-- add_favorite preserves the (user_id, meal_id) uniqueness invariant of the
favorites table. -/
theorem favInv_add_favorite (u : Int) (mid : Option String)
    (n th c a : Option String) (t : Int) (db : DbState) (h : favInv db) :
    favInv (add_favorite u mid n th c a t db).2 := by
  unfold favInv at h
  unfold favInv add_favorite
  dsimp only
  split
  · exact h
  · split
    · exact pairwise_key_map _ favKey
        (fun x => by
          rcases Bool.eq_false_or_eq_true
            (x.user_id == u && x.meal_id == mid.getD "") with hx | hx <;>
            simp [favKey, hx])
        h
    · next hany =>
        refine pairwise_key_append favKey _ h ?_
        intro x hx hkey
        refine hany (List.any_eq_true.mpr ⟨x, hx, ?_⟩)
        have h1 : x.user_id = u := congrArg Prod.fst hkey
        have h2 : x.meal_id = mid.getD "" := congrArg Prod.snd hkey
        simp [h1, h2]

/-- Any sequence of add_favorite requests preserves the uniqueness
invariant. -/
theorem favInv_applyAddCalls (calls : List AddCall) (db : DbState) (h : favInv db) :
    favInv (applyAddCalls calls db) := by
  induction calls generalizing db with
  | nil => exact h
  | cons hd tl ih =>
    unfold applyAddCalls
    rw [List.foldl_cons]
    exact ih _ (favInv_add_favorite _ _ _ _ _ _ _ db h)

/-- On a miss of the (user, meal) unique key, add_favorite appends a full new
row. -/
theorem add_favorite_favorites_insert (u : Int) (m : String)
    (n th c a : Option String) (t : Int) (db : DbState)
    (hm : (m == "") = false)
    (hany : (db.favorites.any fun r => r.user_id == u && r.meal_id == m) = false) :
    (add_favorite u (some m) n th c a t db).2.favorites =
      db.favorites ++
        [{ user_id := u, meal_id := m, meal_name := n, meal_thumb := th,
           category := c, area := a, created_at := t }] := by
  unfold add_favorite
  simp only [Option.getD_some]
  rw [if_neg (by simp [hm]), if_neg (by simp [hany])]

/-- On a hit of the (user, meal) unique key, add_favorite refreshes only the
display name of the matching rows. -/
theorem add_favorite_favorites_update (u : Int) (m : String)
    (n th c a : Option String) (t : Int) (db : DbState)
    (hm : (m == "") = false)
    (hany : (db.favorites.any fun r => r.user_id == u && r.meal_id == m) = true) :
    (add_favorite u (some m) n th c a t db).2.favorites =
      db.favorites.map (fun r =>
        if r.user_id == u && r.meal_id == m then { r with meal_name := n } else r) := by
  unfold add_favorite
  simp only [Option.getD_some]
  rw [if_neg (by simp [hm]), if_pos hany]

/-- Two add_favorite calls for the same (user, meal) pair starting from a
state without that pair: the pair ends with exactly one row, carrying the
second call's name and the first call's other display fields and
timestamp. -/
theorem add_favorite_twice (db : DbState) (u : Int) (m : String)
    (name1 thumb1 cat1 area1 name2 thumb2 cat2 area2 : Option String) (t1 t2 : Int)
    (hm : (m == "") = false)
    (hnone : ∀ r ∈ db.favorites, (r.user_id == u && r.meal_id == m) = false) :
    ((add_favorite u (some m) name2 thumb2 cat2 area2 t2
        (add_favorite u (some m) name1 thumb1 cat1 area1 t1 db).2).2).favorites.filter
      (fun r => r.user_id == u && r.meal_id == m) =
    [{ user_id := u, meal_id := m, meal_name := name2, meal_thumb := thumb1,
       category := cat1, area := area1, created_at := t1 }] := by
  have hany1 : (db.favorites.any fun r => r.user_id == u && r.meal_id == m) = false :=
    List.any_eq_false.mpr (fun x hx => by rw [hnone x hx]; exact Bool.false_ne_true)
  have h1 := add_favorite_favorites_insert u m name1 thumb1 cat1 area1 t1 db hm hany1
  have hany2 : ((add_favorite u (some m) name1 thumb1 cat1 area1 t1 db).2.favorites.any
      fun r => r.user_id == u && r.meal_id == m) = true := by
    rw [h1]
    refine List.any_eq_true.mpr ⟨_, List.mem_append_right _ (List.mem_singleton_self _), ?_⟩
    simp
  have h2 := add_favorite_favorites_update u m name2 thumb2 cat2 area2 t2 _ hm hany2
  rw [h2, h1]
  refine filter_map_upd (fun r : FavRow => r.user_id == u && r.meal_id == m)
    (fun r => if r.user_id == u && r.meal_id == m then { r with meal_name := name2 } else r)
    { user_id := u, meal_id := m, meal_name := name2, meal_thumb := thumb1,
      category := cat1, area := area1, created_at := t1 }
    (fun x hx => by simp [hx]) (by simp)
    _ ?_ ?_ (by rw [← h1]; exact hany2)
  · intro x hx hkx
    have hkb : (x.user_id == u && x.meal_id == m) = true := hkx
    rcases List.mem_append.mp hx with hmem | hmem
    · rw [hnone x hmem] at hkb
      exact absurd hkb Bool.false_ne_true
    · rw [List.mem_singleton] at hmem
      subst hmem
      simp [hkb]
  · rw [List.pairwise_append]
    refine ⟨pairwise_of_no_key _ hnone, List.pairwise_singleton _ _, ?_⟩
    intro x hx b hb hc
    have hcb : (x.user_id == u && x.meal_id == m) = true := hc.1
    rw [hnone x hx] at hcb
    exact Bool.false_ne_true hcb

/-- A list in which no two elements both satisfy p shrinks by at most one
element when the matches are filtered out. -/
theorem length_le_filter_not_add_one {α : Type} (p : α → Bool) :
    ∀ (l : List α), l.Pairwise (fun a b => ¬(p a = true ∧ p b = true)) →
      l.length ≤ (l.filter (fun x => !p x)).length + 1 := by
  intro l
  induction l with
  | nil => simp
  | cons a t ih =>
    intro h
    rw [List.pairwise_cons] at h
    rcases Bool.eq_false_or_eq_true (p a) with hpa | hpa
    · have ht : ∀ x ∈ t, p x = false := by
        intro x hx
        rcases Bool.eq_false_or_eq_true (p x) with htr | hf
        · exact absurd ⟨hpa, htr⟩ (h.1 x hx)
        · exact hf
      have heq : t.filter (fun x => !p x) = t :=
        List.filter_eq_self.mpr (fun x hx => by simp [ht x hx])
      rw [List.filter_cons_of_neg (by simp [hpa]), heq]
      simp
    · rw [List.filter_cons_of_pos (by simp [hpa])]
      have := ih h.2
      simp only [List.length_cons]
      omega

/-- C4: under the favorites unique key, any sequence of add_favorite requests
leaves at most one row per (user, meal) pair; and two calls for the same pair
with different display fields leave exactly one row for the pair, whose name
comes from the second call while thumb, category, area and creation time keep
the first call's values. -/
theorem c4_add_favorite_upsert_unique (db : DbState) (u : Int) (m : String)
    (name1 thumb1 cat1 area1 name2 thumb2 cat2 area2 : Option String) (t1 t2 : Int)
    (hinv : favInv db)
    (hm : (m == "") = false)
    (hnone : ∀ r ∈ db.favorites, (r.user_id == u && r.meal_id == m) = false) :
    (∀ calls : List AddCall, ∀ pk : Int × String,
      (applyAddCalls calls db).favorites.countP (fun r => decide (favKey r = pk)) ≤ 1) ∧
    ((add_favorite u (some m) name2 thumb2 cat2 area2 t2
        (add_favorite u (some m) name1 thumb1 cat1 area1 t1 db).2).2).favorites.filter
      (fun r => r.user_id == u && r.meal_id == m) =
    [{ user_id := u, meal_id := m, meal_name := name2, meal_thumb := thumb1,
       category := cat1, area := area1, created_at := t1 }] := by
  constructor
  · intro calls pk
    have hseq := favInv_applyAddCalls calls db hinv
    unfold favInv at hseq
    refine countP_le_one_of_pairwise _ (hseq.imp ?_)
    intro a b hab hc
    refine hab ?_
    rw [of_decide_eq_true hc.1, of_decide_eq_true hc.2]
  · exact add_favorite_twice db u m name1 thumb1 cat1 area1 name2 thumb2 cat2 area2
      t1 t2 hm hnone

/-- C4 witness: on the empty database, the request sequence callA then callB
leaves at most one row for user 1 and meal 52772, and the direct two-call run
leaves exactly one row with the second name and the first call's other
fields. -/
theorem c4_add_favorite_upsert_unique_witness :
    (applyAddCalls [callA, callB] dbEmpty).favorites.countP
      (fun r => decide (favKey r = ((1 : Int), "52772"))) ≤ 1 ∧
    ((add_favorite 1 (some "52772") (some "B") (some "T2") (some "C2") (some "R2") 200
        (add_favorite 1 (some "52772") (some "A") (some "T") (some "C") (some "R") 100
          dbEmpty).2).2).favorites.filter
      (fun r => r.user_id == 1 && r.meal_id == "52772") =
    [{ user_id := 1, meal_id := "52772", meal_name := some "B", meal_thumb := some "T",
       category := some "C", area := some "R", created_at := 100 }] := by
  have h := c4_add_favorite_upsert_unique dbEmpty 1 "52772"
    (some "A") (some "T") (some "C") (some "R")
    (some "B") (some "T2") (some "C2") (some "R2") 100 200
    (by simp [favInv, dbEmpty]) (by decide) (by simp [dbEmpty])
  exact ⟨h.1 [callA, callB] (1, "52772"), h.2⟩

/-- C6: remove_favorite always answers 200; afterwards no row for the pair
remains; and when no row matched to begin with, the database is unchanged
(zero rows affected, still a success). -/
theorem c6_remove_favorite_not_found_ok (u : Int) (m : String) (db : DbState) :
    (remove_favorite u m db).1.status = 200 ∧
    (∀ r ∈ (remove_favorite u m db).2.favorites, ¬(r.user_id = u ∧ r.meal_id = m)) ∧
    ((∀ r ∈ db.favorites, ¬(r.user_id = u ∧ r.meal_id = m)) →
      (remove_favorite u m db).2 = db) := by
  refine ⟨rfl, ?_, ?_⟩
  · intro r hr hc
    have hp : (!(r.user_id == u && r.meal_id == m)) = true := (List.mem_filter.mp hr).2
    rw [hc.1, hc.2] at hp
    simp at hp
  · intro hall
    unfold remove_favorite
    dsimp only
    have heq : db.favorites.filter (fun r => !(r.user_id == u && r.meal_id == m)) =
        db.favorites := by
      rw [List.filter_eq_self]
      intro x hx
      rcases Bool.eq_false_or_eq_true (x.user_id == u && x.meal_id == m) with htr | hf
      · exact absurd ⟨beq_iff_eq.mp ((Bool.and_eq_true _ _).mp htr).1,
          beq_iff_eq.mp ((Bool.and_eq_true _ _).mp htr).2⟩ (hall x hx)
      · simp [hf]
    rw [heq]

/-- C6 witness: deleting a pair that is not stored returns the state
unchanged, and deleting the stored pair still answers 200. -/
theorem c6_remove_favorite_not_found_ok_witness :
    (remove_favorite 1 "99999" dbFav).2 = dbFav ∧
    (remove_favorite 1 "52772" dbFav).1.status = 200 :=
  ⟨(c6_remove_favorite_not_found_ok 1 "99999" dbFav).2.2 (by decide),
   (c6_remove_favorite_not_found_ok 1 "52772" dbFav).1⟩

/-- C10: remove_favorite touches at most the favorites rows matching both
userId and mealId: search_history and recipe_cache are untouched, every
non-matching favorites row survives, nothing new appears, every dropped row
matched the pair, and under the unique key at most one row is dropped. -/
theorem c10_remove_favorite_frame (u : Int) (m : String) (db : DbState) :
    ((remove_favorite u m db).2.search_history = db.search_history) ∧
    ((remove_favorite u m db).2.recipe_cache = db.recipe_cache) ∧
    (∀ r ∈ db.favorites, ¬(r.user_id = u ∧ r.meal_id = m) →
      r ∈ (remove_favorite u m db).2.favorites) ∧
    (∀ r ∈ (remove_favorite u m db).2.favorites, r ∈ db.favorites) ∧
    (∀ r ∈ db.favorites, r ∉ (remove_favorite u m db).2.favorites →
      r.user_id = u ∧ r.meal_id = m) ∧
    (favInv db → db.favorites.length ≤ (remove_favorite u m db).2.favorites.length + 1) := by
  refine ⟨rfl, rfl, ?_, ?_, ?_, ?_⟩
  · intro r hr hnr
    refine List.mem_filter.mpr ⟨hr, ?_⟩
    rcases Bool.eq_false_or_eq_true (r.user_id == u && r.meal_id == m) with htr | hf
    · exact absurd ⟨beq_iff_eq.mp ((Bool.and_eq_true _ _).mp htr).1,
        beq_iff_eq.mp ((Bool.and_eq_true _ _).mp htr).2⟩ hnr
    · simp [hf]
  · intro r hr
    exact (List.mem_filter.mp hr).1
  · intro r hr hnot
    rcases Bool.eq_false_or_eq_true (r.user_id == u && r.meal_id == m) with htr | hf
    · exact ⟨beq_iff_eq.mp ((Bool.and_eq_true _ _).mp htr).1,
        beq_iff_eq.mp ((Bool.and_eq_true _ _).mp htr).2⟩
    · exact absurd (List.mem_filter.mpr ⟨hr, by simp [hf]⟩) hnot
  · intro hfa
    unfold favInv at hfa
    have hpw : db.favorites.Pairwise
        (fun a b => ¬((a.user_id == u && a.meal_id == m) = true ∧
          (b.user_id == u && b.meal_id == m) = true)) := by
      refine hfa.imp ?_
      intro a b hab hc
      refine hab ?_
      unfold favKey
      rw [beq_iff_eq.mp ((Bool.and_eq_true _ _).mp hc.1).1,
        beq_iff_eq.mp ((Bool.and_eq_true _ _).mp hc.1).2,
        beq_iff_eq.mp ((Bool.and_eq_true _ _).mp hc.2).1,
        beq_iff_eq.mp ((Bool.and_eq_true _ _).mp hc.2).2]
    exact length_le_filter_not_add_one _ db.favorites hpw

/-- C10 witness: removing user 2's (absent) favorite of meal 52772 leaves
user 1's row, the history and the cache untouched, and drops at most one
row. -/
theorem c10_remove_favorite_frame_witness :
    (remove_favorite 2 "52772" dbFav).2.search_history = dbFav.search_history ∧
    favRow0 ∈ (remove_favorite 2 "52772" dbFav).2.favorites ∧
    dbFav.favorites.length ≤ (remove_favorite 2 "52772" dbFav).2.favorites.length + 1 := by
  have h := c10_remove_favorite_frame 2 "52772" dbFav
  exact ⟨h.1, h.2.2.1 favRow0 (by decide) (by decide),
    h.2.2.2.2.2 (by simp [favInv, dbFav])⟩

/-- C5: a missing or empty required query parameter makes each search
endpoint answer 400 with an error body, issue no upstream call and leave the
database unchanged (so no history row is written). -/
theorem c5_missing_param_rejected (user_id : Int) (p : Option String)
    (up : Except String Json) (o : LogOutcome) (now : Int) (db : DbState)
    (hp : p.getD "" = "") :
    search_by_ingredient p user_id up o now db =
      { resp := { status := 400, body := errBody "Ingredient parameter is required" },
        db := db, upstreamCalls := 0 } ∧
    search_by_name p user_id up o now db =
      { resp := { status := 400, body := errBody "Name parameter is required" },
        db := db, upstreamCalls := 0 } ∧
    search_by_category p user_id up o now db =
      { resp := { status := 400, body := errBody "Category parameter is required" },
        db := db, upstreamCalls := 0 } := by
  refine ⟨?_, ?_, ?_⟩
  · simp [search_by_ingredient, hp]
  · simp [search_by_name, hp]
  · simp [search_by_category, hp]

/-- C5 witness: an absent ingredient parameter and an empty name parameter
are both rejected with 400, no upstream call and no state change. -/
theorem c5_missing_param_rejected_witness :
    search_by_ingredient none 1 (.ok payload0) LogOutcome.ok 0 dbEmpty =
      { resp := { status := 400, body := errBody "Ingredient parameter is required" },
        db := dbEmpty, upstreamCalls := 0 } ∧
    search_by_name (some "") 1 (.error "down") LogOutcome.stmtError 5 dbEmpty =
      { resp := { status := 400, body := errBody "Name parameter is required" },
        db := dbEmpty, upstreamCalls := 0 } :=
  ⟨(c5_missing_param_rejected 1 none (.ok payload0) LogOutcome.ok 0 dbEmpty rfl).1,
   (c5_missing_param_rejected 1 (some "") (.error "down") LogOutcome.stmtError 5
      dbEmpty rfl).2.1⟩

/-- C7: with a valid parameter and an upstream body whose result count can be
computed, each search endpoint answers 200 with the upstream JSON for every
storage outcome inside log_search_history, including connection failure and
statement error; on a failure outcome the database is also unchanged. -/
theorem c7_log_failure_swallowed (term : String) (u : Int) (data : Json) (n : Nat)
    (o : LogOutcome) (now : Int) (db : DbState)
    (hterm : (term == "") = false)
    (hcount : mealsCount data = .ok n) :
    (search_by_ingredient (some term) u (.ok data) o now db).resp =
      { status := 200, body := data } ∧
    (search_by_name (some term) u (.ok data) o now db).resp =
      { status := 200, body := data } ∧
    (search_by_category (some term) u (.ok data) o now db).resp =
      { status := 200, body := data } ∧
    (o ≠ LogOutcome.ok → (search_by_ingredient (some term) u (.ok data) o now db).db = db) := by
  refine ⟨?_, ?_, ?_, ?_⟩
  · simp [search_by_ingredient, hterm, hcount]
  · simp [search_by_name, hterm, hcount]
  · simp [search_by_category, hterm, hcount]
  · intro ho
    cases o with
    | ok => exact absurd rfl ho
    | noConnection => simp [search_by_ingredient, hterm, hcount, log_search_history]
    | stmtError => simp [search_by_ingredient, hterm, hcount, log_search_history]

/-- C7 witness: with parameter chicken and one upstream meal, a statement
error inside logging still yields 200 with the upstream JSON and leaves the
database unchanged. -/
theorem c7_log_failure_swallowed_witness :
    (search_by_ingredient (some "chicken") 1 (.ok payload0)
        LogOutcome.stmtError 7 dbEmpty).resp = { status := 200, body := payload0 } ∧
    (search_by_ingredient (some "chicken") 1 (.ok payload0)
        LogOutcome.stmtError 7 dbEmpty).db = dbEmpty := by
  have h := c7_log_failure_swallowed "chicken" 1 payload0 1 LogOutcome.stmtError 7
    dbEmpty rfl rfl
  exact ⟨h.1, h.2.2.2 (by decide)⟩

/-- C3 evaluated at the failing input: a valid parameter with an upstream
body whose meals field is JSON null (the TheMealDB shape for an empty filter
result).  len(data.get('meals', [])) evaluates len(None); the TypeError is
caught by the generic except branch and turned into a 500 error response, so
the parsed upstream JSON is not passed through with 200 and no history row is
written. -/
theorem c3_meals_null_gives_500 :
    search_by_ingredient (some "zzz") 1 (.ok (Json.obj [("meals", Json.null)]))
      LogOutcome.ok 0 dbEmpty =
      { resp :=
          { status := 500,
            body := errBody "TypeError: object of type NoneType has no len()" },
        db := dbEmpty, upstreamCalls := 1 } := rfl

/-- C8: get_search_history returns at most limit rows, all belonging to the
requested user, in descending created_at order; and on histDb (five entries
for user 1) with limit 2 it returns exactly the two most recent ones. -/
theorem c8_search_history_recent (u : Int) (n : Nat) (db : DbState) :
    (get_search_history u n db).length ≤ n ∧
    (∀ r ∈ get_search_history u n db, r.user_id = u) ∧
    (get_search_history u n db).Pairwise histDesc ∧
    get_search_history 1 2 histDb = [hRow 5, hRow 4] := by
  refine ⟨List.length_take_le _ _, ?_, ?_, by decide⟩
  · intro r hr
    have h1 : r ∈ List.insertionSort histDesc
        (db.search_history.filter (fun x => x.user_id == u)) := List.mem_of_mem_take hr
    have h2 : r ∈ db.search_history.filter (fun x => x.user_id == u) :=
      (List.perm_insertionSort histDesc _).mem_iff.mp h1
    exact beq_iff_eq.mp (List.mem_filter.mp h2).2
  · have hs : (List.insertionSort histDesc
        (db.search_history.filter (fun x => x.user_id == u))).Pairwise histDesc :=
      List.sorted_insertionSort histDesc _
    exact List.Pairwise.sublist (List.take_sublist _ _) hs

/-- C8 witness: on the concrete five-entry history of user 1, limit 2 returns
the entries created at times 5 and 4 in that order, and at most two rows. -/
theorem c8_search_history_recent_witness :
    get_search_history 1 2 histDb = [hRow 5, hRow 4] ∧
    (get_search_history 1 2 histDb).length ≤ 2 :=
  ⟨(c8_search_history_recent 1 2 histDb).2.2.2, (c8_search_history_recent 1 2 histDb).1⟩
